import Mathlib

/-!
Verification of the Bank_api repository's currency harmonization and
revaluation logic, shallowly embedded from the Python sources
`src/excel_report_generator.py`, `src/building_excel.py` and
`src/nbg_fx_rates.py`.  Monetary amounts and exchange rates are modelled
as rationals; dates are modelled as natural numbers (day indices); the
SQLite rate table is modelled as a list of records; the external NBG API
response is modelled as an optional list of currency entries.
-/

namespace BankApi

/-! ## Revaluation calculator (excel_report_generator.add_foreign_currency_summary_rows) -/

/-- `term1 = opening_balance * previous_day_rate`
(excel_report_generator.py line 463). -/
def term1 (opening_balance previous_day_rate : ℚ) : ℚ :=
  opening_balance * previous_day_rate

/-- `term2 = (opening_balance + turnover) * today_rate`
(excel_report_generator.py line 464). -/
def term2 (opening_balance turnover today_rate : ℚ) : ℚ :=
  (opening_balance + turnover) * today_rate

/-- `term3 = turnover * today_rate` (excel_report_generator.py line 465). -/
def term3 (turnover today_rate : ℚ) : ℚ :=
  turnover * today_rate

/-- `turnover = total_credit_for_turnover - total_debit_for_turnover`
(excel_report_generator.py line 457). -/
def turnover (total_credit_for_turnover total_debit_for_turnover : ℚ) : ℚ :=
  total_credit_for_turnover - total_debit_for_turnover

/-- `exchange_diff = term1 - term2 + term3` (excel_report_generator.py
line 467), the FX adjustment of `add_foreign_currency_summary_rows`. -/
def exchange_diff (opening_balance turnover today_rate previous_day_rate : ℚ) : ℚ :=
  term1 opening_balance previous_day_rate
    - term2 opening_balance turnover today_rate
    + term3 turnover today_rate

/-- A spreadsheet cell of the summary row: either a numeric value or the
empty string `''` that the source writes into the unused column. -/
inductive Cell where
  | num (v : ℚ)
  | blank
deriving DecidableEq, Repr

/-- Sign-to-column dispatch of the revaluation summary row
(excel_report_generator.py lines 483-491): the result is the pair
(debit-equivalent GEL column, credit-equivalent GEL column). -/
def reval_columns (exchange_diff : ℚ) : Cell × Cell :=
  if exchange_diff < 0 then
    (Cell.num exchange_diff, Cell.blank)
  else if exchange_diff > 0 then
    (Cell.blank, Cell.num |exchange_diff|)
  else
    (Cell.num 0, Cell.num 0)

/-! ## Revaluation in building_excel.generate_daily_bank_report -/

/-- `revaluation_amount_gel = closing_balance_fc * current_nbg_rate -
(opening_balance_gel_prev_day + net_turnover_gel_from_transactions)`
(building_excel.py lines 309-310). -/
def revaluation_amount_gel
    (closing_balance_fc current_nbg_rate opening_balance_gel_prev_day
     net_turnover_gel_from_transactions : ℚ) : ℚ :=
  closing_balance_fc * current_nbg_rate
    - (opening_balance_gel_prev_day + net_turnover_gel_from_transactions)

/-- The small-amount cutoff applied to the revaluation amount before it is
written to the report: `if abs(revaluation_amount_gel) < 0.005:
revaluation_amount_gel = 0.0` (building_excel.py lines 312-313). -/
def round_small (revaluation_amount_gel : ℚ) : ℚ :=
  if |revaluation_amount_gel| < 5 / 1000 then 0 else revaluation_amount_gel

/-- The previous-day rate table used by `generate_daily_bank_report`
(building_excel.py lines 126-130): when fetching the previous day's NBG
rates yields an empty table, the code silently substitutes the current
day's table.  Entries are (currency, rate_per_unit) pairs. -/
def nbg_rates_df_previous (nbg_rates_df_current fetched_previous : List (String × ℚ)) :
    List (String × ℚ) :=
  if fetched_previous.isEmpty then nbg_rates_df_current else fetched_previous

/-! ## Rate provider (nbg_fx_rates.py) -/

namespace nbg_fx_rates

/-- One row of the `nbg_fx_rates` SQLite table, PRIMARY KEY
(date, currency) (nbg_fx_rates.py lines 29-38).  Dates are day indices. -/
structure RateRecord where
  date : Nat
  currency : String
  rate : ℚ
  quantity : ℚ
  rate_per_unit : ℚ
deriving DecidableEq, Repr

/-- The durable rate cache: the rows of the `nbg_fx_rates` table. -/
abbrev RatesDb := List RateRecord

/-- One entry of the `currencies` array of the NBG API JSON response. -/
structure ApiCurrency where
  code : String
  rate : ℚ
  quantity : ℚ
deriving DecidableEq, Repr

/-- The GEL row that `fetch_nbg_rates_from_api` always appends
(nbg_fx_rates.py lines 82-89). -/
def gel_record (target_date : Nat) : RateRecord :=
  { date := target_date, currency := "GEL", rate := 1, quantity := 1, rate_per_unit := 1 }

/-- `fetch_nbg_rates_from_api` (nbg_fx_rates.py lines 43-100).
`response = none` models every empty-result path of the source: request
failure, invalid payload (`not data or 'currencies' not in data[0]`) and
the exception handlers, each of which returns an empty DataFrame.
`response = some currencies` models a valid payload whose `currencies`
array is `currencies`; each entry becomes one record with
`rate_per_unit = rate / quantity if quantity else 0`, and the GEL row is
appended at the end. -/
def fetch_nbg_rates_from_api (target_date : Nat)
    (response : Option (List ApiCurrency)) : List RateRecord :=
  match response with
  | none => []
  | some currencies =>
      currencies.map (fun curr =>
        { date := target_date
          currency := curr.code
          rate := curr.rate
          quantity := curr.quantity
          rate_per_unit := if curr.quantity = 0 then 0 else curr.rate / curr.quantity })
      ++ [gel_record target_date]

/-- `store_rates_to_db` (nbg_fx_rates.py lines 103-128): an empty frame
is not stored; otherwise every row is inserted into the table. -/
def store_rates_to_db (db : RatesDb) (df : List RateRecord) : RatesDb :=
  if df.isEmpty then db else db ++ df

/-- `get_nbg_rate` (nbg_fx_rates.py lines 131-165): GEL short-circuits to
1.0 before any database access; otherwise the row with the given date and
currency is looked up and its `rate_per_unit` returned, `none` when the
row is absent. -/
def get_nbg_rate (db : RatesDb) (currency : String) (target_date : Nat) : Option ℚ :=
  if currency = "GEL" then some 1
  else
    (db.find? (fun r => r.date == target_date && r.currency == currency)).map
      (fun r => r.rate_per_unit)

/-- `get_all_rates_for_date` (nbg_fx_rates.py lines 222-254): the
(currency, rate_per_unit) pairs stored for a date; empty when the table
has no row for the date, and with GEL = 1.0 appended otherwise
(lookup semantics of the Python dict: the last entry for a key wins). -/
def get_all_rates_for_date (db : RatesDb) (target_date : Nat) : List (String × ℚ) :=
  let rows := db.filter (fun r => r.date == target_date)
  if rows.isEmpty then []
  else rows.map (fun r => (r.currency, r.rate_per_unit)) ++ [("GEL", 1)]

/-- `ensure_rates_for_date` (nbg_fx_rates.py lines 257-281): on a cache
hit the database is untouched and `true` is returned; on a miss the API
is queried for that date and, when it returns rows, all of them are
stored; `false` signals that no rates could be obtained.  `api` models
the external NBG source, mapping a date to its response. -/
def ensure_rates_for_date (db : RatesDb) (api : Nat → Option (List ApiCurrency))
    (target_date : Nat) : RatesDb × Bool :=
  if !(get_all_rates_for_date db target_date).isEmpty then (db, true)
  else
    let df := fetch_nbg_rates_from_api target_date (api target_date)
    if !df.isEmpty then (store_rates_to_db db df, true)
    else (db, false)

end nbg_fx_rates

/-! ## Report-side rate wrapper and partitioning (excel_report_generator.py) -/

namespace excel_report_generator

/-- The wrapper `get_nbg_rate` (excel_report_generator.py lines 92-119):
GEL short-circuits to 1.0; otherwise `ensure_rates_for_date` is run and
the module lookup's result is returned with `or 0`, which coerces a
missing rate (`None`) to 0. -/
def get_nbg_rate (db : nbg_fx_rates.RatesDb)
    (api : Nat → Option (List nbg_fx_rates.ApiCurrency))
    (currency : String) (target_date : Nat) : ℚ :=
  if currency = "GEL" then 1
  else
    let ensured := nbg_fx_rates.ensure_rates_for_date db api target_date
    (nbg_fx_rates.get_nbg_rate ensured.1 currency target_date).getD 0

/-- A report row as sliced in `main` (excel_report_generator.py lines
641-675): only the `Company`, `თარიღი` (date) and `Curr` fields drive the
slicing and the currency-class split. -/
structure ReportRow where
  company : String
  date : Nat
  curr : String
deriving DecidableEq, Repr

/-- The rows of one company and date, as selected in `main`
(excel_report_generator.py lines 644-658). -/
def rows_for_company_date (rows : List ReportRow) (company : String) (d : Nat) :
    List ReportRow :=
  (rows.filter (fun r => r.company == company)).filter (fun r => r.date == d)

/-- The local-currency partition `df[df['Curr'] == 'GEL']`
(excel_report_generator.py lines 665, 671). -/
def gel_partition (rows : List ReportRow) : List ReportRow :=
  rows.filter (fun r => r.curr == "GEL")

/-- The foreign-currency partition `df[df['Curr'] != 'GEL']`
(excel_report_generator.py lines 667, 674). -/
def other_partition (rows : List ReportRow) : List ReportRow :=
  rows.filter (fun r => r.curr != "GEL")

end excel_report_generator

end BankApi

namespace BankApi

/-! ## Theorems about the revaluation calculator -/

/-- C1: for every opening balance, turnover and pair of rates, the FX
adjustment `term1 - term2 + term3` equals
`opening_balance * (previous_day_rate - today_rate)`; in particular it is
independent of the turnover. -/
theorem exchange_diff_eq_opening_times_rate_delta
    (opening_balance turnover today_rate previous_day_rate : ℚ) :
    exchange_diff opening_balance turnover today_rate previous_day_rate
      = opening_balance * (previous_day_rate - today_rate)
    ∧ ∀ turnover₂ : ℚ,
        exchange_diff opening_balance turnover today_rate previous_day_rate
          = exchange_diff opening_balance turnover₂ today_rate previous_day_rate := by
  constructor
  · unfold exchange_diff term1 term2 term3
    ring
  · intro t₂
    unfold exchange_diff term1 term2 term3
    ring

/-- C2: with opening balance 1000, turnover 0, yesterday's rate 2.70 and
today's rate 2.72, the computed FX adjustment is exactly -20; it is
negative, so `add_foreign_currency_summary_rows` writes it (the value
itself) into the debit-equivalent GEL column and blanks the
credit-equivalent column: a loss of 20 GEL-equivalent. -/
theorem exchange_diff_usd_scenario :
    exchange_diff 1000 0 (272 / 100) (270 / 100) = -20
    ∧ exchange_diff 1000 0 (272 / 100) (270 / 100) < 0
    ∧ reval_columns (exchange_diff 1000 0 (272 / 100) (270 / 100))
        = (Cell.num (-20), Cell.blank) := by
  refine ⟨by norm_num [exchange_diff, term1, term2, term3], ?_, ?_⟩
  · norm_num [exchange_diff, term1, term2, term3]
  · have h : exchange_diff 1000 0 (272 / 100) (270 / 100) = -20 := by
      norm_num [exchange_diff, term1, term2, term3]
    rw [h]
    norm_num [reval_columns]

/-- C5: when the turnover (total credit minus total debit) is zero and
yesterday's rate equals today's rate, the FX adjustment is exactly 0. -/
theorem exchange_diff_zero_of_zero_turnover_same_rate
    (opening_balance total_credit total_debit today_rate previous_day_rate : ℚ)
    (ht : turnover total_credit total_debit = 0)
    (hr : previous_day_rate = today_rate) :
    exchange_diff opening_balance (turnover total_credit total_debit)
      today_rate previous_day_rate = 0 := by
  rw [ht, hr]
  unfold exchange_diff term1 term2 term3
  ring

/-- Witness for C5 at opening balance 500, credit 70, debit 70 and both
rates 2.5. -/
theorem exchange_diff_zero_of_zero_turnover_same_rate_witness :
    exchange_diff 500 (turnover 70 70) (5 / 2) (5 / 2) = 0 :=
  exchange_diff_zero_of_zero_turnover_same_rate 500 70 70 (5 / 2) (5 / 2)
    (by norm_num [turnover]) rfl

/-- C8: the sign-to-column mapping of the revaluation row is asymmetric:
a strictly negative difference is written as-is (not its absolute value)
into the debit-equivalent column with the credit column blanked; a
strictly positive difference is written as its absolute value into the
credit-equivalent column with the debit column blanked; a zero difference
writes 0 into both columns. -/
theorem reval_columns_spec (d : ℚ) :
    (d < 0 → reval_columns d = (Cell.num d, Cell.blank))
    ∧ (0 < d → reval_columns d = (Cell.blank, Cell.num |d|))
    ∧ (d = 0 → reval_columns d = (Cell.num 0, Cell.num 0)) := by
  refine ⟨?_, ?_, ?_⟩
  · intro h
    simp [reval_columns, h]
  · intro h
    simp [reval_columns, h, not_lt.mpr (le_of_lt h)]
  · intro h
    simp [reval_columns, h]

/-- Witness for C8 at the differences -5, 7 and 0. -/
theorem reval_columns_spec_witness :
    reval_columns (-5) = (Cell.num (-5), Cell.blank)
    ∧ reval_columns 7 = (Cell.blank, Cell.num |(7 : ℚ)|)
    ∧ reval_columns 0 = (Cell.num 0, Cell.num 0) :=
  ⟨(reval_columns_spec (-5)).1 (by norm_num),
   (reval_columns_spec 7).2.1 (by norm_num),
   (reval_columns_spec 0).2.2 rfl⟩

/-- C9: every computed revaluation amount whose absolute value is
strictly below 0.005 is replaced by exactly 0 before being written, and
consequently the written revaluation amount is never a nonzero value
smaller than 0.005 in absolute value. -/
theorem round_small_spec
    (closing_balance_fc current_nbg_rate opening_balance_gel_prev_day
     net_turnover_gel : ℚ) :
    (|revaluation_amount_gel closing_balance_fc current_nbg_rate
        opening_balance_gel_prev_day net_turnover_gel| < 5 / 1000 →
      round_small (revaluation_amount_gel closing_balance_fc current_nbg_rate
        opening_balance_gel_prev_day net_turnover_gel) = 0)
    ∧ (round_small (revaluation_amount_gel closing_balance_fc current_nbg_rate
        opening_balance_gel_prev_day net_turnover_gel) ≠ 0 →
      5 / 1000 ≤ |round_small (revaluation_amount_gel closing_balance_fc
        current_nbg_rate opening_balance_gel_prev_day net_turnover_gel)|) := by
  set v := revaluation_amount_gel closing_balance_fc current_nbg_rate
    opening_balance_gel_prev_day net_turnover_gel with hv
  constructor
  · intro h
    simp [round_small, h]
  · intro h
    by_cases hlt : |v| < 5 / 1000
    · exact absurd (by simp [round_small, hlt]) h
    · have : round_small v = v := by simp [round_small, hlt]
      rw [this]
      exact not_lt.mp hlt

/-- Witness for C9: a raw revaluation amount of 0.001 GEL (below the
0.005 cutoff) is written as exactly 0. -/
theorem round_small_spec_witness :
    round_small (revaluation_amount_gel (2001 / 1000) 1 1 1) = 0 :=
  (round_small_spec (2001 / 1000) 1 1 1).1 (by
    norm_num [revaluation_amount_gel, abs_lt])

/-! ## Theorems about the rate provider and the report partitioning -/

/-- Auxiliary: filtering a list by a predicate and by its negation splits
the length exactly. -/
theorem length_filter_add_length_filter_not {α : Type} (p : α → Bool) (l : List α) :
    (l.filter p).length + (l.filter (fun a => !(p a))).length = l.length := by
  induction l with
  | nil => simp
  | cons a l ih => by_cases h : p a <;> simp [List.filter_cons, h] <;> omega

/-- Auxiliary: every record produced by `fetch_nbg_rates_from_api` for a
date carries that date. -/
theorem fetch_nbg_rates_date_eq {d : Nat}
    {response : Option (List nbg_fx_rates.ApiCurrency)}
    {r : nbg_fx_rates.RateRecord}
    (hr : r ∈ nbg_fx_rates.fetch_nbg_rates_from_api d response) : r.date = d := by
  cases response with
  | none => simp [nbg_fx_rates.fetch_nbg_rates_from_api] at hr
  | some currencies =>
    simp [nbg_fx_rates.fetch_nbg_rates_from_api, nbg_fx_rates.gel_record] at hr
    rcases hr with ⟨c, hc, rfl⟩ | rfl <;> rfl

/-- Auxiliary: an empty `get_all_rates_for_date` means the table has no
row for the date. -/
theorem get_all_rates_empty_filter {db : nbg_fx_rates.RatesDb} {d : Nat}
    (h : nbg_fx_rates.get_all_rates_for_date db d = []) :
    db.filter (fun r => r.date == d) = [] := by
  by_cases hrow : (db.filter (fun r => r.date == d)).isEmpty
  · exact List.isEmpty_iff.mp hrow
  · exfalso
    unfold nbg_fx_rates.get_all_rates_for_date at h
    simp [hrow] at h

/-- C4: for every cache state, external source and date, looking up the
rate of the local currency GEL yields exactly 1.0, in the rate module and
in the report wrapper alike; the result does not depend on the cache or
the source, both of which are short-circuited. -/
theorem get_nbg_rate_gel_always_one
    (db : nbg_fx_rates.RatesDb)
    (api : Nat → Option (List nbg_fx_rates.ApiCurrency)) (d : Nat) :
    nbg_fx_rates.get_nbg_rate db "GEL" d = some 1
    ∧ excel_report_generator.get_nbg_rate db api "GEL" d = 1 := by
  constructor
  · simp [nbg_fx_rates.get_nbg_rate]
  · simp [excel_report_generator.get_nbg_rate]

/-- C3: when the rate for a (currency, date) is missing and the external
source yields nothing, the rate module signals the gap with `none`, but
the report wrapper converts it to the rate 0 (`or 0`) and
`generate_daily_bank_report` substitutes the current day's rate table for
the missing previous-day table: the computation silently degrades instead
of failing loudly. -/
theorem missing_rate_silently_defaults :
    nbg_fx_rates.get_nbg_rate [] "USD" 0 = none
    ∧ excel_report_generator.get_nbg_rate [] (fun _ => none) "USD" 0 = 0
    ∧ nbg_rates_df_previous [("USD", 272 / 100)] [] = [("USD", 272 / 100)] := by
  refine ⟨rfl, ?_, rfl⟩
  simp [excel_report_generator.get_nbg_rate, nbg_fx_rates.ensure_rates_for_date,
    nbg_fx_rates.get_all_rates_for_date, nbg_fx_rates.fetch_nbg_rates_from_api,
    nbg_fx_rates.get_nbg_rate]

/-- C10: every non-empty record list returned by
`fetch_nbg_rates_from_api` contains the GEL row with rate 1.0, quantity 1
and rate_per_unit 1.0, whatever the external source returned for that
date. -/
theorem fetch_nbg_rates_contains_gel (d : Nat)
    (response : Option (List nbg_fx_rates.ApiCurrency))
    (h : nbg_fx_rates.fetch_nbg_rates_from_api d response ≠ []) :
    ({ date := d, currency := "GEL", rate := 1, quantity := 1, rate_per_unit := 1 } :
        nbg_fx_rates.RateRecord)
      ∈ nbg_fx_rates.fetch_nbg_rates_from_api d response := by
  cases response with
  | none => simp [nbg_fx_rates.fetch_nbg_rates_from_api] at h
  | some currencies =>
    simp [nbg_fx_rates.fetch_nbg_rates_from_api, nbg_fx_rates.gel_record]

/-- Witness for C10 on a response whose `currencies` array is empty: the
result is the single GEL row. -/
theorem fetch_nbg_rates_contains_gel_witness :
    ({ date := 3, currency := "GEL", rate := 1, quantity := 1, rate_per_unit := 1 } :
        nbg_fx_rates.RateRecord)
      ∈ nbg_fx_rates.fetch_nbg_rates_from_api 3 (some []) :=
  fetch_nbg_rates_contains_gel 3 (some [])
    (by simp [nbg_fx_rates.fetch_nbg_rates_from_api])

/-- C7: on a cache miss for a date, when the external source returns
rates for that date, `ensure_rates_for_date` reports success, persists
every returned record (not only a requested currency) to the cache, and
a subsequent lookup of any returned currency on that date hits the
cache. -/
theorem ensure_rates_persists_all_currencies
    (db : nbg_fx_rates.RatesDb)
    (api : Nat → Option (List nbg_fx_rates.ApiCurrency)) (d : Nat)
    (hmiss : nbg_fx_rates.get_all_rates_for_date db d = [])
    (hfetch : nbg_fx_rates.fetch_nbg_rates_from_api d (api d) ≠ []) :
    (nbg_fx_rates.ensure_rates_for_date db api d).2 = true
    ∧ (∀ r, r ∈ nbg_fx_rates.fetch_nbg_rates_from_api d (api d) →
        r ∈ (nbg_fx_rates.ensure_rates_for_date db api d).1)
    ∧ (∀ r, r ∈ nbg_fx_rates.fetch_nbg_rates_from_api d (api d) →
        (nbg_fx_rates.get_nbg_rate
          (nbg_fx_rates.ensure_rates_for_date db api d).1 r.currency d).isSome = true) := by
  have hdb : nbg_fx_rates.ensure_rates_for_date db api d
      = (db ++ nbg_fx_rates.fetch_nbg_rates_from_api d (api d), true) := by
    unfold nbg_fx_rates.ensure_rates_for_date nbg_fx_rates.store_rates_to_db
    simp [hmiss, hfetch]
  refine ⟨by rw [hdb], ?_, ?_⟩
  · intro r hr
    rw [hdb]
    exact List.mem_append.mpr (Or.inr hr)
  · intro r hr
    rw [hdb]
    by_cases hg : r.currency = "GEL"
    · simp [nbg_fx_rates.get_nbg_rate, hg]
    · simp only [nbg_fx_rates.get_nbg_rate, hg, if_false, Option.isSome_map']
      rw [List.find?_isSome]
      refine ⟨r, List.mem_append.mpr (Or.inr hr), ?_⟩
      simp [fetch_nbg_rates_date_eq hr]

/-- Witness for C7: an empty cache, an external source returning a single
USD entry for day 0; after `ensure_rates_for_date` the call reports
success and the USD lookup on day 0 hits the cache. -/
theorem ensure_rates_persists_all_currencies_witness :
    (nbg_fx_rates.ensure_rates_for_date []
        (fun _ => some [⟨"USD", 27 / 10, 1⟩]) 0).2 = true
    ∧ (nbg_fx_rates.get_nbg_rate
        (nbg_fx_rates.ensure_rates_for_date []
          (fun _ => some [⟨"USD", 27 / 10, 1⟩]) 0).1 "USD" 0).isSome = true := by
  have h := ensure_rates_persists_all_currencies []
    (fun _ => some [⟨"USD", 27 / 10, 1⟩]) 0 rfl
    (by simp [nbg_fx_rates.fetch_nbg_rates_from_api])
  refine ⟨h.1, ?_⟩
  have hm : (⟨0, "USD", 27 / 10, 1, 27 / 10⟩ : nbg_fx_rates.RateRecord)
      ∈ nbg_fx_rates.fetch_nbg_rates_from_api 0
        ((fun _ => some [⟨"USD", 27 / 10, 1⟩]) 0) := by
    simp [nbg_fx_rates.fetch_nbg_rates_from_api]
  exact h.2.2 _ hm

/-- C6: for every row set, company and date, the local-currency partition
(`Curr == 'GEL'`) and the foreign-currency partition (`Curr != 'GEL'`) of
that company/date's rows are total and non-overlapping: their lengths sum
to the total length and no row belongs to both. -/
theorem partition_total_and_disjoint
    (rows : List excel_report_generator.ReportRow) (company : String) (d : Nat) :
    (excel_report_generator.gel_partition
        (excel_report_generator.rows_for_company_date rows company d)).length
      + (excel_report_generator.other_partition
          (excel_report_generator.rows_for_company_date rows company d)).length
      = (excel_report_generator.rows_for_company_date rows company d).length
    ∧ ∀ r, r ∈ excel_report_generator.gel_partition
            (excel_report_generator.rows_for_company_date rows company d) →
        r ∉ excel_report_generator.other_partition
            (excel_report_generator.rows_for_company_date rows company d) := by
  constructor
  · have h := length_filter_add_length_filter_not
      (fun r : excel_report_generator.ReportRow => r.curr == "GEL")
      (excel_report_generator.rows_for_company_date rows company d)
    simpa [excel_report_generator.gel_partition,
      excel_report_generator.other_partition, bne] using h
  · intro r hr hro
    simp [excel_report_generator.gel_partition, List.mem_filter] at hr
    simp [excel_report_generator.other_partition, List.mem_filter] at hro
    exact hro.2 hr.2

/-- Witness for C6 on three concrete rows (two of company ACME on day 5,
one GEL and one USD, plus a row of another company): the two partitions'
lengths sum to the sliced total, and the GEL row is not in the foreign
partition. -/
theorem partition_total_and_disjoint_witness :
    (excel_report_generator.gel_partition
        (excel_report_generator.rows_for_company_date
          [⟨"ACME", 5, "GEL"⟩, ⟨"ACME", 5, "USD"⟩, ⟨"Other", 5, "GEL"⟩] "ACME" 5)).length
      + (excel_report_generator.other_partition
          (excel_report_generator.rows_for_company_date
            [⟨"ACME", 5, "GEL"⟩, ⟨"ACME", 5, "USD"⟩, ⟨"Other", 5, "GEL"⟩] "ACME" 5)).length
      = (excel_report_generator.rows_for_company_date
          [⟨"ACME", 5, "GEL"⟩, ⟨"ACME", 5, "USD"⟩, ⟨"Other", 5, "GEL"⟩] "ACME" 5).length
    ∧ (⟨"ACME", 5, "GEL"⟩ ∈ excel_report_generator.gel_partition
          (excel_report_generator.rows_for_company_date
            [⟨"ACME", 5, "GEL"⟩, ⟨"ACME", 5, "USD"⟩, ⟨"Other", 5, "GEL"⟩] "ACME" 5) →
        (⟨"ACME", 5, "GEL"⟩ : excel_report_generator.ReportRow)
          ∉ excel_report_generator.other_partition
            (excel_report_generator.rows_for_company_date
              [⟨"ACME", 5, "GEL"⟩, ⟨"ACME", 5, "USD"⟩, ⟨"Other", 5, "GEL"⟩] "ACME" 5)) :=
  ⟨(partition_total_and_disjoint
      [⟨"ACME", 5, "GEL"⟩, ⟨"ACME", 5, "USD"⟩, ⟨"Other", 5, "GEL"⟩] "ACME" 5).1,
   (partition_total_and_disjoint
      [⟨"ACME", 5, "GEL"⟩, ⟨"ACME", 5, "USD"⟩, ⟨"Other", 5, "GEL"⟩] "ACME" 5).2 _⟩

end BankApi
